import Mathlib

/-!
Verification of the deterministic experience-mod rating engine
(`mod_engine.py` and `state_config.py`) against its specification.

Shallow embedding conventions:
* Python `float` values are modelled as exact rationals (`ℚ`); the engine
  performs only field arithmetic, `min`/`max`, and a final round-to-3-decimals.
* `datetime.date` is modelled as an ordinal day number (`Int`); subtracting two
  dates yields the day difference, matching `(d1 - d2).days`.
* Python exceptions (`ValueError`, `NotImplementedError`) are modelled with
  `Except String`; the subclass overrides of `calculate_w_and_b` in
  `CaliforniaConfig`/`NewYorkConfig` are modelled by dispatch on `state_code`,
  which coincides with Python method resolution on every constructible config.
* `round(x, 3)` is modelled as exact round-half-to-even at 3 decimals.
* Python `in` (substring) is modelled via `String.splitOn`; dict-of-lists
  grouping with `setdefault` is modelled as first-occurrence-ordered keys with
  per-key `filter`, which is exactly the insertion-order semantics of a Python
  dict of appended lists.
-/

namespace InsuranceAudit

/-- Dates are ordinal day numbers. -/
abbrev Date := Int

/-- Substring test: `needle` occurs in `hay` (Python `needle in hay`) for a
nonempty needle, via `splitOn` producing more than one fragment. -/
def strContainsSub (hay needle : String) : Bool :=
  (hay.splitOn needle).length > 1

/-- `Claim` from `mod_engine.py`: an individual claim from a loss run. -/
structure Claim where
  claim_number : String
  accident_date : Date
  claimant_name : String
  injury_code : String
  incurred_indemnity : ℚ
  incurred_medical : ℚ
  paid_indemnity : ℚ
  paid_medical : ℚ
  reserves_indemnity : ℚ
  reserves_medical : ℚ
  status : String
  last_payment_date : Option Date := none
  claim_notes : String := ""
deriving DecidableEq, Repr

def Claim.incurred_total (c : Claim) : ℚ :=
  c.incurred_indemnity + c.incurred_medical

def Claim.is_medical_only (c : Claim) : Bool :=
  c.injury_code == "6" || c.incurred_indemnity == 0

def Claim.is_denied (c : Claim) : Bool :=
  strContainsSub c.status.toLower "denied" || strContainsSub c.claim_notes.toLower "non-comp"

def Claim.has_subrogation (c : Claim) : Bool :=
  ["subro", "recovery", "third party", "reimbursement"].any
    (fun kw => strContainsSub c.claim_notes.toLower kw)

def Claim.has_sif_credit (c : Claim) : Bool :=
  ["sif", "second injury fund", "state fund"].any
    (fun kw => strContainsSub c.claim_notes.toLower kw)

/-- `ClassCodeExposure` from `mod_engine.py`: payroll and expected losses for a
class code, with the decomposable payroll components used for leak detection. -/
structure ClassCodeExposure where
  class_code : String
  description : String
  payroll : ℚ
  elr : ℚ
  d_ratio : ℚ
  overtime_earnings : ℚ := 0
  overtime_rate : ℚ := 3/2
  executive_officer_payroll : ℚ := 0
  severance_pay : ℚ := 0
  travel_reimbursements : ℚ := 0
  subcontractor_payroll : ℚ := 0
deriving DecidableEq, Repr

def ClassCodeExposure.expected_losses (e : ClassCodeExposure) : ℚ :=
  (e.payroll / 100) * e.elr

def ClassCodeExposure.expected_primary (e : ClassCodeExposure) : ℚ :=
  e.expected_losses * e.d_ratio

def ClassCodeExposure.expected_excess (e : ClassCodeExposure) : ℚ :=
  e.expected_losses - e.expected_primary

/-- `PolicyInfo` from `mod_engine.py`. -/
structure PolicyInfo where
  policy_number : String
  policy_effective_date : Date
  policy_expiration_date : Date
  anniversary_rating_date : Date
  total_manual_premium : ℚ
  total_standard_premium : ℚ
  current_mod : ℚ
  state : String
deriving DecidableEq, Repr

/-- The 20 leak kinds of `LeakType` in `mod_engine.py` (priority/label metadata
is carried by the Python enum values and not needed by any computation). -/
inductive LeakType where
  | ERA_MEDICAL_ONLY | SUBROGATION | ZOMBIE_RESERVES | OVERTIME_PREMIUM
  | EXEC_OFFICER_CAP | RULE_4C_DENIAL | SUBCONTRACTOR_DUPES | CLASS_CODE_8810
  | ARD_MISMATCH | SIF_CREDIT | DUPLICATE_CLAIMS | SEVERANCE_PAY
  | OCIP_WRAUP | VALUATION_WINDOW | TABLE_DRIFT | DEDUCTIBLE_LEAK
  | OWNERSHIP_ERROR | TRAVEL_EXPENSE | SPLIT_POINT_CAP | CLERICAL_MIXUP
deriving DecidableEq, Repr

/-- `DetectedLeak` from `mod_engine.py`. Formatted dollar amounts inside the
Python f-string `description`/`evidence` texts are elided (no audited
computation reads them back). -/
structure DetectedLeak where
  leak_type : LeakType
  description : String
  affected_items : List String
  current_value : ℚ
  corrected_value : ℚ
  dollar_impact : ℚ
  recovery_probability : ℚ
  evidence : String
deriving DecidableEq, Repr

def DetectedLeak.expected_recovery (l : DetectedLeak) : ℚ :=
  l.dollar_impact * l.recovery_probability

/-- `StateConfig` from `state_config.py` (the data fields; the four concrete
state classes below only differ in these fields plus the `calculate_w_and_b`
override modelled in `StateConfig.calculate_w_and_b`). -/
structure StateConfig where
  state_code : String
  state_name : String
  split_point : ℚ
  sal_per_claim : ℚ
  sal_multiple_claim : ℚ
  g_value : ℚ
  s_value : ℚ
  is_era_state : Bool
  era_discount : ℚ := 3/10
  is_ncci_state : Bool
  bureau_name : String
  effective_date : Date
  elr_decimals : Nat := 3
  min_expected_losses : ℚ := 5000
deriving DecidableEq, Repr

/-- Raw (pre-clamp) Kp of `_calculate_w_b_ncci`:
`Kp = (E × (E + 0.01028S)) / (0.75E + 0.8153S)`. -/
def ncci_kp_raw (E S : ℚ) : ℚ :=
  (E * (E + (1028/100000) * S)) / ((75/100) * E + (8153/10000) * S)

/-- Ke of `_calculate_w_b_ncci`: `Ke = (E × (E + 0.0204S)) / (0.1E + 0.5109S)`. -/
def ncci_ke (E S : ℚ) : ℚ :=
  (E * (E + (204/10000) * S)) / ((1/10) * E + (5109/10000) * S)

/-- `StateConfig._calculate_w_b_ncci`: B = Kp (clamped below at 7,500),
W = (E + Ke)/(E + Kp). Returns `(W, B)`. -/
def StateConfig.calc_w_b_ncci (cfg : StateConfig) (E : ℚ) : ℚ × ℚ :=
  let Kp := max 7500 (ncci_kp_raw E cfg.s_value)
  let Ke := ncci_ke E cfg.s_value
  ((E + Ke) / (E + Kp), Kp)

/-- `StateConfig.calculate_w_and_b` with the Python subclass overrides:
`CaliforniaConfig` and `NewYorkConfig` override the method and always raise
`NotImplementedError`; every other config uses the base method, which raises
unless `is_ncci_state`. Dispatch is modelled on `state_code`, which matches
Python method resolution on all constructible configs. -/
def StateConfig.calculate_w_and_b (cfg : StateConfig) (expected_losses : ℚ) :
    Except String (ℚ × ℚ) :=
  if cfg.state_code = "CA" then
    .error "California W/B calculation requires WCIRB documentation"
  else if cfg.state_code = "NY" then
    .error "New York W/B calculation requires NYCIRB documentation"
  else if cfg.is_ncci_state then
    .ok (cfg.calc_w_b_ncci expected_losses)
  else
    .error ("W/B calculation not implemented for " ++ cfg.state_code)

/-- `StateConfig.apply_sal_cap`: `min(claim_total, sal_per_claim)`. -/
def StateConfig.apply_sal_cap (cfg : StateConfig) (claim_total : ℚ) : ℚ :=
  min claim_total cfg.sal_per_claim

/-- `GeorgiaConfig` (NCCI state). The unused `effective_date` ordinal encodes
2026-03-01. -/
def GeorgiaConfig : StateConfig :=
  { state_code := "GA", state_name := "Georgia"
    split_point := 21500, sal_per_claim := 176000, sal_multiple_claim := 352000
    g_value := 1265/100, s_value := 3162500
    is_era_state := true, era_discount := 3/10
    is_ncci_state := true, bureau_name := "NCCI"
    effective_date := 739677, elr_decimals := 3, min_expected_losses := 5000 }

/-- `CaliforniaConfig` (non-NCCI, WCIRB). -/
def CaliforniaConfig : StateConfig :=
  { state_code := "CA", state_name := "California"
    split_point := 15000, sal_per_claim := 200000, sal_multiple_claim := 400000
    g_value := 0, s_value := 0
    is_era_state := false, era_discount := 3/10
    is_ncci_state := false, bureau_name := "WCIRB"
    effective_date := 739618, elr_decimals := 2, min_expected_losses := 10000 }

/-- `NewYorkConfig` (non-NCCI, NYCIRB). -/
def NewYorkConfig : StateConfig :=
  { state_code := "NY", state_name := "New York"
    split_point := 19500, sal_per_claim := 180000, sal_multiple_claim := 360000
    g_value := 0, s_value := 0
    is_era_state := false, era_discount := 3/10
    is_ncci_state := false, bureau_name := "NYCIRB"
    effective_date := 739618, elr_decimals := 2, min_expected_losses := 5000 }

/-- `PennsylvaniaConfig` (non-NCCI, PCRB; does not override
`calculate_w_and_b`, so the base non-NCCI branch raises). -/
def PennsylvaniaConfig : StateConfig :=
  { state_code := "PA", state_name := "Pennsylvania"
    split_point := 19500, sal_per_claim := 175000, sal_multiple_claim := 350000
    g_value := 0, s_value := 0
    is_era_state := false, era_discount := 3/10
    is_ncci_state := false, bureau_name := "PCRB"
    effective_date := 739618, elr_decimals := 2, min_expected_losses := 5000 }

/-- `STATE_CONFIGS` registry of `state_config.py`. -/
def STATE_CONFIGS : List (String × StateConfig) :=
  [("GA", GeorgiaConfig), ("CA", CaliforniaConfig),
   ("NY", NewYorkConfig), ("PA", PennsylvaniaConfig)]

/-- `get_state_config`: factory lookup that raises `ValueError` for an
unregistered state code, naming the supported set. -/
def get_state_config (state_code : String) : Except String StateConfig :=
  match STATE_CONFIGS.lookup state_code with
  | some cfg => .ok cfg
  | none =>
      .error ("State " ++ state_code ++ " not yet implemented. Available: [GA, CA, NY, PA]")

/-- `ProcessedClaim` from `mod_engine.py`: a claim after the ERA, SAL and
frequency gates. -/
structure ProcessedClaim where
  original_claim : Claim
  era_applied : Bool
  era_ratable_amount : ℚ
  sal_applied : Bool
  sal_capped_amount : ℚ
  frequency_cap_applied : Bool
  frequency_adjusted_amount : ℚ
  primary_loss : ℚ
  excess_loss : ℚ
deriving DecidableEq, Repr

def ProcessedClaim.total_ratable_loss (p : ProcessedClaim) : ℚ :=
  p.primary_loss + p.excess_loss

/-- First-occurrence-ordered list of distinct accident dates, i.e. the key
order of the Python dict built with `setdefault` in `preprocess_claims`. -/
def insertionOrderDates (claims : List Claim) : List Date :=
  claims.foldl
    (fun acc c => if c.accident_date ∈ acc then acc else acc ++ [c.accident_date]) []

/-- `claims_by_date` of `preprocess_claims`: insertion-ordered dict of lists,
keys in first-occurrence order, each group keeping input order. -/
def groupByDate (claims : List Claim) : List (Date × List Claim) :=
  (insertionOrderDates claims).map
    (fun d => (d, claims.filter (fun c => decide (c.accident_date = d))))

/-- The frequency-gate ratio and flag of `preprocess_claims` for one accident
date group: when more than one claim shares the date and the raw incurred sum
exceeds the multiple-claim cap, ratio = cap / sum; otherwise ratio = 1. -/
def groupRatio (config : StateConfig) (date_claims : List Claim) : ℚ × Bool :=
  if 1 < date_claims.length then
    let total_before_cap := (date_claims.map Claim.incurred_total).sum
    if config.sal_multiple_claim < total_before_cap then
      (config.sal_multiple_claim / total_before_cap, true)
    else (1, false)
  else (1, false)

/-- ERA-gate ratable amount of a claim: discounted for medical-only claims in
ERA states, otherwise the raw incurred total. -/
def eraRatable (config : StateConfig) (claim : Claim) : ℚ :=
  if config.is_era_state && claim.is_medical_only then
    claim.incurred_total * config.era_discount
  else claim.incurred_total

/-- The ERA leak record emitted in `preprocess_claims`. -/
def eraLeak (config : StateConfig) (claim : Claim) : DetectedLeak :=
  { leak_type := .ERA_MEDICAL_ONLY
    description := "Med-only claim " ++ claim.claim_number ++ " missing 70% discount"
    affected_items := [claim.claim_number]
    current_value := claim.incurred_total
    corrected_value := claim.incurred_total * config.era_discount
    dollar_impact := claim.incurred_total - claim.incurred_total * config.era_discount
    recovery_probability := 95/100
    evidence := "NCCI Experience Rating Plan Manual Rule 2-E-1" }

/-- The SAL leak record emitted in `preprocess_claims`. -/
def salLeak (config : StateConfig) (claim : Claim) : DetectedLeak :=
  { leak_type := .SPLIT_POINT_CAP
    description := "Claim " ++ claim.claim_number ++ " exceeds SAL cap"
    affected_items := [claim.claim_number]
    current_value := eraRatable config claim
    corrected_value := config.apply_sal_cap (eraRatable config claim)
    dollar_impact := eraRatable config claim - config.apply_sal_cap (eraRatable config claim)
    recovery_probability := 99/100
    evidence := "State Per Claim Accident Limitation" }

/-- The per-claim body of the loop in `preprocess_claims`: ERA gate, SAL gate,
frequency scaling by the precomputed group ratio, and primary/excess split.
Returns the `ProcessedClaim` and the ERA/SAL leaks for this claim (in
emission order: ERA first). The ERA leak condition is the Python
`incurred_total > era_ratable` test inside the ERA branch, written here as the
equivalent conjunction with the branch condition. -/
def gateClaim (config : StateConfig) (ratio : ℚ) (freq_applied : Bool) (claim : Claim) :
    ProcessedClaim × List DetectedLeak :=
  let era_applied := config.is_era_state && claim.is_medical_only
  let era_ratable := eraRatable config claim
  let era_leaks : List DetectedLeak :=
    if era_applied = true ∧ era_ratable < claim.incurred_total then [eraLeak config claim]
    else []
  let sal_capped := config.apply_sal_cap era_ratable
  let sal_leaks : List DetectedLeak :=
    if sal_capped < era_ratable then [salLeak config claim] else []
  let frequency_adjusted := sal_capped * ratio
  ({ original_claim := claim
     era_applied := era_applied
     era_ratable_amount := era_ratable
     sal_applied := decide (sal_capped < era_ratable)
     sal_capped_amount := sal_capped
     frequency_cap_applied := freq_applied
     frequency_adjusted_amount := frequency_adjusted
     primary_loss := min frequency_adjusted config.split_point
     excess_loss := max 0 (frequency_adjusted - config.split_point) },
   era_leaks ++ sal_leaks)

/-- One accident-date group of `preprocess_claims`: processed claims and leaks
for every claim of the group, under the group frequency ratio. -/
def processGroup (config : StateConfig) (date_claims : List Claim) :
    List ProcessedClaim × List DetectedLeak :=
  let rg := groupRatio config date_claims
  (date_claims.map (fun c => (gateClaim config rg.1 rg.2 c).1),
   date_claims.flatMap (fun c => (gateClaim config rg.1 rg.2 c).2))

/-- `preprocess_claims` of `mod_engine.py`: group claims by accident date
(insertion order), compute each group frequency ratio from raw incurred
totals, then run every claim through the ERA and SAL gates, scale by the group
ratio, and split into primary/excess. Returns (processed claims, leaks) in the
same order as the Python loops. -/
def preprocess_claims (claims : List Claim) (config : StateConfig) :
    List ProcessedClaim × List DetectedLeak :=
  ((groupByDate claims).flatMap (fun g => (processGroup config g.2).1),
   (groupByDate claims).flatMap (fun g => (processGroup config g.2).2))

/-- Overtime premium exclusion fraction of `adjust_payroll_for_leaks`:
1/3 at 1.5x, 1/2 at 2.0x, 1.5/2.5 at 2.5x, otherwise (rate − 1)/rate. -/
def otExclusion (exp : ClassCodeExposure) : ℚ :=
  if exp.overtime_rate = 3/2 then exp.overtime_earnings * (1/3)
  else if exp.overtime_rate = 2 then exp.overtime_earnings * (1/2)
  else if exp.overtime_rate = 5/2 then exp.overtime_earnings * ((3/2) / (5/2))
  else exp.overtime_earnings * ((exp.overtime_rate - 1) / exp.overtime_rate)

/-- Overtime-premium leak (Leak 4). -/
def otLeak (exp : ClassCodeExposure) : DetectedLeak :=
  { leak_type := .OVERTIME_PREMIUM
    description := "Class " ++ exp.class_code ++ ": OT premium not excluded"
    affected_items := [exp.class_code]
    current_value := exp.payroll
    corrected_value := exp.payroll - otExclusion exp
    dollar_impact := otExclusion exp
    recovery_probability := 90/100
    evidence := "NCCI Basic Manual Rule 2-C-2 - Overtime exclusion" }

/-- Executive-officer-cap leak (Leak 5). -/
def execLeak (cap : ℚ) (exp : ClassCodeExposure) : DetectedLeak :=
  { leak_type := .EXEC_OFFICER_CAP
    description := "Executive officer payroll exceeds state cap"
    affected_items := [exp.class_code]
    current_value := exp.executive_officer_payroll
    corrected_value := cap
    dollar_impact := exp.executive_officer_payroll - cap
    recovery_probability := 99/100
    evidence := "State maximum weekly payroll cap" }

/-- Severance-pay leak (Leak 12). -/
def sevLeak (exp : ClassCodeExposure) : DetectedLeak :=
  { leak_type := .SEVERANCE_PAY
    description := "Class " ++ exp.class_code ++ ": Severance pay included"
    affected_items := [exp.class_code]
    current_value := exp.payroll
    corrected_value := exp.payroll - exp.severance_pay
    dollar_impact := exp.severance_pay
    recovery_probability := 85/100
    evidence := "NCCI Basic Manual Rule 2-B-2-e - Severance pay excluded" }

/-- Travel-reimbursement leak (Leak 18). -/
def travelLeak (exp : ClassCodeExposure) : DetectedLeak :=
  { leak_type := .TRAVEL_EXPENSE
    description := "Class " ++ exp.class_code ++ ": Travel reimbursements included"
    affected_items := [exp.class_code]
    current_value := exp.payroll
    corrected_value := exp.payroll - exp.travel_reimbursements
    dollar_impact := exp.travel_reimbursements
    recovery_probability := 80/100
    evidence := "NCCI Basic Manual Rule 2-B-2-h - Expense reimbursements excluded" }

/-- Subcontractor-duplication leak (Leak 7). -/
def subLeak (exp : ClassCodeExposure) : DetectedLeak :=
  { leak_type := .SUBCONTRACTOR_DUPES
    description := "Subcontractor payroll double-counted (have COI)"
    affected_items := [exp.class_code]
    current_value := exp.payroll
    corrected_value := exp.payroll - exp.subcontractor_payroll
    dollar_impact := exp.subcontractor_payroll
    recovery_probability := 75/100
    evidence := "Certificates of Insurance on file for subcontractors" }

/-- Total payroll corrections accumulated by the five rules of
`adjust_payroll_for_leaks` for one exposure. -/
def payrollCorrections (cap : ℚ) (exp : ClassCodeExposure) : ℚ :=
  (if 0 < exp.overtime_earnings then otExclusion exp else 0) +
  (if cap < exp.executive_officer_payroll then exp.executive_officer_payroll - cap else 0) +
  (if 0 < exp.severance_pay then exp.severance_pay else 0) +
  (if 0 < exp.travel_reimbursements then exp.travel_reimbursements else 0) +
  (if 0 < exp.subcontractor_payroll then exp.subcontractor_payroll else 0)

/-- Leaks emitted by the five rules of `adjust_payroll_for_leaks` for one
exposure, in source order (OT, exec cap, severance, travel, subcontractor). -/
def exposureLeaks (cap : ℚ) (exp : ClassCodeExposure) : List DetectedLeak :=
  (if 0 < exp.overtime_earnings then [otLeak exp] else []) ++
  (if cap < exp.executive_officer_payroll then [execLeak cap exp] else []) ++
  (if 0 < exp.severance_pay then [sevLeak exp] else []) ++
  (if 0 < exp.travel_reimbursements then [travelLeak exp] else []) ++
  (if 0 < exp.subcontractor_payroll then [subLeak exp] else [])

/-- The adjusted exposure constructed at the end of the loop body of
`adjust_payroll_for_leaks`: same class code, description, ELR and D-Ratio,
payroll reduced by the corrections, and every payroll-component field left at
its dataclass default (zeros, overtime rate 1.5). -/
def adjustedExposure (cap : ℚ) (exp : ClassCodeExposure) : ClassCodeExposure :=
  { class_code := exp.class_code
    description := exp.description
    payroll := exp.payroll - payrollCorrections cap exp
    elr := exp.elr
    d_ratio := exp.d_ratio }

/-- `adjust_payroll_for_leaks` of `mod_engine.py`. The `config` argument is
accepted and unused, as in the source; `exec_officer_state_cap` defaults to
100,000 at the call sites below. -/
def adjust_payroll_for_leaks (exposures : List ClassCodeExposure) (_config : StateConfig)
    (exec_officer_state_cap : ℚ) : List ClassCodeExposure × List DetectedLeak :=
  (exposures.map (adjustedExposure exec_officer_state_cap),
   exposures.flatMap (exposureLeaks exec_officer_state_cap))

/-- Subrogation leak (Leak 2). -/
def subrogationLeak (claim : Claim) : DetectedLeak :=
  { leak_type := .SUBROGATION
    description := "Claim " ++ claim.claim_number ++ " has subrogation recovery not credited"
    affected_items := [claim.claim_number]
    current_value := claim.incurred_total
    corrected_value := 0
    dollar_impact := claim.incurred_total * (25/100)
    recovery_probability := 70/100
    evidence := "Claim notes: " ++ claim.claim_notes }

/-- Zombie-reserves leak (Leak 3). -/
def zombieLeak (claim : Claim) (days_inactive : Int) : DetectedLeak :=
  { leak_type := .ZOMBIE_RESERVES
    description := "Claim " ++ claim.claim_number ++ " open " ++ toString days_inactive ++
      " days with no activity"
    affected_items := [claim.claim_number]
    current_value := claim.reserves_indemnity + claim.reserves_medical
    corrected_value := 0
    dollar_impact := claim.reserves_indemnity + claim.reserves_medical
    recovery_probability := 60/100
    evidence := "No activity for " ++ toString days_inactive ++ " days" }

/-- Rule 4-C denied-claim leak (Leak 6). -/
def rule4cLeak (claim : Claim) : DetectedLeak :=
  { leak_type := .RULE_4C_DENIAL
    description := "Denied claim " ++ claim.claim_number ++ " still in mod"
    affected_items := [claim.claim_number]
    current_value := claim.incurred_total
    corrected_value := 0
    dollar_impact := claim.incurred_total
    recovery_probability := 95/100
    evidence := "NCCI Experience Rating Plan Manual Rule 4-C" }

/-- SIF-credit leak (Leak 10). -/
def sifLeak (claim : Claim) : DetectedLeak :=
  { leak_type := .SIF_CREDIT
    description := "Claim " ++ claim.claim_number ++ " has SIF credit not applied"
    affected_items := [claim.claim_number]
    current_value := claim.incurred_total
    corrected_value := claim.incurred_total * (50/100)
    dollar_impact := claim.incurred_total * (50/100)
    recovery_probability := 65/100
    evidence := "Claim notes: " ++ claim.claim_notes }

/-- Duplicate-claims leak (Leak 11). -/
def dupLeak (original_number : String) (claim : Claim) : DetectedLeak :=
  { leak_type := .DUPLICATE_CLAIMS
    description := "Claims " ++ original_number ++ " and " ++ claim.claim_number ++
      " are duplicates"
    affected_items := [original_number, claim.claim_number]
    current_value := claim.incurred_total * 2
    corrected_value := claim.incurred_total
    dollar_impact := claim.incurred_total
    recovery_probability := 90/100
    evidence := "Same date, claimant, and amount" }

/-- The duplicate-detection signature string
`f"{accident_date}_{claimant_name}_{incurred_total}"` of `detect_claim_leaks`. -/
def claimSig (c : Claim) : String :=
  toString c.accident_date ++ "_" ++ c.claimant_name ++ "_" ++ toString c.incurred_total

/-- One iteration of the loop in `detect_claim_leaks`; the state is the leak
accumulator plus the `claim_signatures` association (dict in insertion order).
Leaks append in source order: subrogation, zombie, denial, SIF, duplicate. -/
def detectLeaksStep (valuation_date : Date)
    (acc : List DetectedLeak × List (String × String)) (claim : Claim) :
    List DetectedLeak × List (String × String) :=
  let subro_leaks : List DetectedLeak :=
    if claim.has_subrogation = true ∧ 0 < claim.incurred_total then [subrogationLeak claim]
    else []
  let zombie_leaks : List DetectedLeak :=
    match claim.last_payment_date with
    | some lpd =>
        if claim.status = "Open" ∧ 180 < valuation_date - lpd then
          [zombieLeak claim (valuation_date - lpd)]
        else []
    | none => []
  let denial_leaks : List DetectedLeak :=
    if claim.is_denied = true ∧ 0 < claim.incurred_total then [rule4cLeak claim] else []
  let sif_leaks : List DetectedLeak :=
    if claim.has_sif_credit = true then [sifLeak claim] else []
  match acc.2.lookup (claimSig claim) with
  | some original_number =>
      (acc.1 ++ subro_leaks ++ zombie_leaks ++ denial_leaks ++ sif_leaks ++
        [dupLeak original_number claim], acc.2)
  | none =>
      (acc.1 ++ subro_leaks ++ zombie_leaks ++ denial_leaks ++ sif_leaks,
       acc.2 ++ [(claimSig claim, claim.claim_number)])

/-- `detect_claim_leaks` of `mod_engine.py`. -/
def detect_claim_leaks (claims : List Claim) (valuation_date : Date) : List DetectedLeak :=
  (claims.foldl (detectLeaksStep valuation_date) ([], [])).1

/-- Floor of a rational, computed from its reduced numerator/denominator. -/
def ratFloor (q : ℚ) : ℤ :=
  Int.fdiv q.num (q.den : ℤ)

/-- Round-half-to-even to an integer (Python `round` semantics on ties). -/
def roundTiesEven (q : ℚ) : ℤ :=
  let f := ratFloor q
  let r := q - (f : ℚ)
  if r < 1/2 then f
  else if 1/2 < r then f + 1
  else if f % 2 = 0 then f else f + 1

/-- `round(x, 3)` of Python, modelled exactly on rationals. -/
def round3 (q : ℚ) : ℚ :=
  (roundTiesEven (q * 1000) : ℚ) / 1000

/-- `ModCalculationResult` from `mod_engine.py`. -/
structure ModCalculationResult where
  state : String
  total_expected_losses : ℚ
  expected_primary : ℚ
  expected_excess : ℚ
  actual_primary : ℚ
  actual_excess : ℚ
  W : ℚ
  B : ℚ
  split_point : ℚ
  sal_cap : ℚ
  numerator : ℚ
  denominator : ℚ
  experience_mod : ℚ
deriving DecidableEq, Repr

/-- `calculate_experience_mod` of `mod_engine.py`: the NCCI weighted
credibility formula, with mod = 1.000 when the denominator is zero, rounded to
3 decimals; the `calculate_w_and_b` exception of non-NCCI configs propagates. -/
def calculate_experience_mod (exposures : List ClassCodeExposure)
    (processed_claims : List ProcessedClaim) (config : StateConfig) :
    Except String ModCalculationResult :=
  let total_expected := (exposures.map ClassCodeExposure.expected_losses).sum
  let expected_primary := (exposures.map ClassCodeExposure.expected_primary).sum
  let expected_excess := (exposures.map ClassCodeExposure.expected_excess).sum
  let actual_primary := (processed_claims.map ProcessedClaim.primary_loss).sum
  let actual_excess := (processed_claims.map ProcessedClaim.excess_loss).sum
  match config.calculate_w_and_b total_expected with
  | .error e => .error e
  | .ok wb =>
    let W := wb.1
    let B := wb.2
    let numerator := actual_primary + (W * actual_excess) + ((1 - W) * expected_excess) + B
    let denominator := expected_primary + expected_excess + B
    let mod_value := if denominator = 0 then 1 else numerator / denominator
    .ok { state := config.state_code
          total_expected_losses := total_expected
          expected_primary := expected_primary
          expected_excess := expected_excess
          actual_primary := actual_primary
          actual_excess := actual_excess
          W := W, B := B
          split_point := config.split_point
          sal_cap := config.sal_per_claim
          numerator := numerator
          denominator := denominator
          experience_mod := round3 mod_value }

/-- `AuditReport` from `mod_engine.py` (the fields the orchestrator computes;
JSON serialization is outside the audited core). -/
structure AuditReport where
  policy_info : PolicyInfo
  current_mod_calc : ModCalculationResult
  corrected_mod_calc : ModCalculationResult
  detected_leaks : List DetectedLeak
  total_leak_impact : ℚ
  expected_recovery : ℚ
  mod_reduction : ℚ
  premium_savings : ℚ
deriving DecidableEq, Repr

/-- `run_full_audit` of `mod_engine.py`: resolve the state config, compute the
current mod over raw data (the first pass's gate leaks are discarded, as in
`current_processed_claims, _ = preprocess_claims(...)`), adjust payroll,
re-run the gates, detect claim-level leaks, drop denied claims from the
corrected pass, compute the corrected mod, and aggregate. Exceptions
(unsupported state, unimplemented W/B) propagate as `.error`. -/
def run_full_audit (policy_info : PolicyInfo) (raw_exposures : List ClassCodeExposure)
    (raw_claims : List Claim) (valuation_date : Date) (exec_officer_cap : ℚ) :
    Except String AuditReport :=
  match get_state_config policy_info.state with
  | .error e => .error e
  | .ok config =>
    match calculate_experience_mod raw_exposures (preprocess_claims raw_claims config).1
        config with
    | .error e => .error e
    | .ok current_mod =>
      let adjusted := adjust_payroll_for_leaks raw_exposures config exec_officer_cap
      let corrected_pass := preprocess_claims raw_claims config
      let claim_leaks := detect_claim_leaks raw_claims valuation_date
      let final_claims := corrected_pass.1.filter (fun c => ! c.original_claim.is_denied)
      match calculate_experience_mod adjusted.1 final_claims config with
      | .error e => .error e
      | .ok corrected_mod =>
        let all_leaks := adjusted.2 ++ corrected_pass.2 ++ claim_leaks
        let mod_reduction := current_mod.experience_mod - corrected_mod.experience_mod
        .ok { policy_info := policy_info
              current_mod_calc := current_mod
              corrected_mod_calc := corrected_mod
              detected_leaks := all_leaks
              total_leak_impact := (all_leaks.map DetectedLeak.dollar_impact).sum
              expected_recovery := (all_leaks.map DetectedLeak.expected_recovery).sum
              mod_reduction := mod_reduction
              premium_savings := mod_reduction * policy_info.total_manual_premium }

/-!  Concrete fixtures used by witnesses and counterexamples. -/

/-- A Georgia policy. -/
def P0 : PolicyInfo :=
  { policy_number := "P-001", policy_effective_date := 739000
    policy_expiration_date := 739365, anniversary_rating_date := 739000
    total_manual_premium := 250000, total_standard_premium := 250000
    current_mod := 1, state := "GA" }

/-- An open indemnity claim of 200,000 (not medical-only, not denied). -/
def c0 : Claim :=
  { claim_number := "CL-1", accident_date := 738900, claimant_name := "A"
    injury_code := "3", incurred_indemnity := 200000, incurred_medical := 0
    paid_indemnity := 0, paid_medical := 0, reserves_indemnity := 0
    reserves_medical := 0, status := "Open" }

/-- A denied claim with positive incurred total. -/
def cDenied : Claim :=
  { claim_number := "CL-9", accident_date := 738901, claimant_name := "B"
    injury_code := "4", incurred_indemnity := 30000, incurred_medical := 12000
    paid_indemnity := 0, paid_medical := 0, reserves_indemnity := 0
    reserves_medical := 0, status := "Denied" }

/-- The end-to-end scenario exposure of the spec: payroll 100,000,
ELR 0.05, D-Ratio 0.40. -/
def E5 : ClassCodeExposure :=
  { class_code := "8810", description := "Clerical", payroll := 100000
    elr := 5/100, d_ratio := 4/10 }

/-- An exposure triggering none of the five payroll rules but carrying a
nonzero executive-officer payroll below the 100,000 cap. -/
def E_cx : ClassCodeExposure :=
  { class_code := "5645", description := "Carpentry", payroll := 300000
    elr := 2, d_ratio := 1/3, executive_officer_payroll := 50000 }

/-- Two claims sharing an accident date whose raw incurred totals sum to
400,000, above the Georgia multiple-claim cap of 352,000. -/
def cA : Claim :=
  { claim_number := "CL-A", accident_date := 738800, claimant_name := "C"
    injury_code := "2", incurred_indemnity := 250000, incurred_medical := 0
    paid_indemnity := 0, paid_medical := 0, reserves_indemnity := 0
    reserves_medical := 0, status := "Open" }

def cB : Claim :=
  { claim_number := "CL-B", accident_date := 738800, claimant_name := "D"
    injury_code := "2", incurred_indemnity := 150000, incurred_medical := 0
    paid_indemnity := 0, paid_medical := 0, reserves_indemnity := 0
    reserves_medical := 0, status := "Open" }

def CLAIMS2 : List Claim := [cA, cB]

/-- Placeholder processed claim for total default extraction. -/
def PC_DUMMY : ProcessedClaim :=
  { original_claim := c0, era_applied := false, era_ratable_amount := 0
    sal_applied := false, sal_capped_amount := 0, frequency_cap_applied := false
    frequency_adjusted_amount := 0, primary_loss := 0, excess_loss := 0 }

/-- The first processed claim of the two-claim frequency scenario. -/
def PC0 : ProcessedClaim :=
  ((preprocess_claims CLAIMS2 GeorgiaConfig).1).headD PC_DUMMY

/-- Placeholder mod result for total default extraction. -/
def MOD_DUMMY : ModCalculationResult :=
  { state := "GA", total_expected_losses := 0, expected_primary := 0
    expected_excess := 0, actual_primary := 0, actual_excess := 0
    W := 0, B := 0, split_point := 0, sal_cap := 0
    numerator := 0, denominator := 0, experience_mod := 0 }

/-- Placeholder audit report for total default extraction. -/
def REPORT_DUMMY : AuditReport :=
  { policy_info := P0, current_mod_calc := MOD_DUMMY, corrected_mod_calc := MOD_DUMMY
    detected_leaks := [], total_leak_impact := 0, expected_recovery := 0
    mod_reduction := 0, premium_savings := 0 }

/-- The audit report of the single-claim Georgia scenario. -/
def AUDIT_R0 : AuditReport :=
  ((run_full_audit P0 [] [c0] 739400 100000).toOption).getD REPORT_DUMMY

/-!  Structural lemmas about the claim-gate pipeline. -/

theorem gateClaim_original (config : StateConfig) (ratio : ℚ) (fca : Bool) (c : Claim) :
    (gateClaim config ratio fca c).1.original_claim = c := rfl

theorem gateClaim_era (config : StateConfig) (ratio : ℚ) (fca : Bool) (c : Claim) :
    (gateClaim config ratio fca c).1.era_ratable_amount = eraRatable config c := rfl

theorem gateClaim_sal (config : StateConfig) (ratio : ℚ) (fca : Bool) (c : Claim) :
    (gateClaim config ratio fca c).1.sal_capped_amount =
      config.apply_sal_cap (eraRatable config c) := rfl

theorem gateClaim_sal_applied (config : StateConfig) (ratio : ℚ) (fca : Bool) (c : Claim) :
    (gateClaim config ratio fca c).1.sal_applied =
      decide (config.apply_sal_cap (eraRatable config c) < eraRatable config c) := rfl

theorem gateClaim_freq (config : StateConfig) (ratio : ℚ) (fca : Bool) (c : Claim) :
    (gateClaim config ratio fca c).1.frequency_adjusted_amount =
      config.apply_sal_cap (eraRatable config c) * ratio := rfl

theorem gateClaim_primary (config : StateConfig) (ratio : ℚ) (fca : Bool) (c : Claim) :
    (gateClaim config ratio fca c).1.primary_loss =
      min ((gateClaim config ratio fca c).1.frequency_adjusted_amount) config.split_point := rfl

theorem gateClaim_excess (config : StateConfig) (ratio : ℚ) (fca : Bool) (c : Claim) :
    (gateClaim config ratio fca c).1.excess_loss =
      max 0 ((gateClaim config ratio fca c).1.frequency_adjusted_amount - config.split_point) :=
  rfl

/-- The frequency ratio as a single conditional. -/
theorem groupRatio_fst (config : StateConfig) (l : List Claim) :
    (groupRatio config l).1 =
      if 1 < l.length ∧ config.sal_multiple_claim < (l.map Claim.incurred_total).sum then
        config.sal_multiple_claim / (l.map Claim.incurred_total).sum
      else 1 := by
  unfold groupRatio
  by_cases h1 : 1 < l.length
  · by_cases h2 : config.sal_multiple_claim < (l.map Claim.incurred_total).sum
    · simp [h1, h2]
    · simp [h1, h2]
  · simp [h1]

/-- Membership in the foldl that accumulates first-occurrence dates. -/
theorem mem_dates_foldl (claims : List Claim) (acc : List Date) (d : Date) :
    d ∈ claims.foldl
        (fun a c => if c.accident_date ∈ a then a else a ++ [c.accident_date]) acc ↔
      d ∈ acc ∨ ∃ c ∈ claims, c.accident_date = d := by
  induction claims generalizing acc with
  | nil => simp
  | cons c rest ih =>
      simp only [List.foldl_cons, ih]
      by_cases hc : c.accident_date ∈ acc
      · simp only [if_pos hc, List.mem_cons]
        constructor
        · rintro (hd | ⟨x, hx, he⟩)
          · exact Or.inl hd
          · exact Or.inr ⟨x, Or.inr hx, he⟩
        · rintro (hd | ⟨x, hx | hx, he⟩)
          · exact Or.inl hd
          · subst hx; subst he; exact Or.inl hc
          · exact Or.inr ⟨x, hx, he⟩
      · simp only [if_neg hc, List.mem_append, List.mem_singleton, List.mem_cons,
          List.not_mem_nil, or_false]
        constructor
        · rintro ((hd | hd) | ⟨x, hx, he⟩)
          · exact Or.inl hd
          · exact Or.inr ⟨c, Or.inl rfl, hd.symm⟩
          · exact Or.inr ⟨x, Or.inr hx, he⟩
        · rintro (hd | ⟨x, hx | hx, he⟩)
          · exact Or.inl (Or.inl hd)
          · subst hx; exact Or.inl (Or.inr he.symm)
          · exact Or.inr ⟨x, hx, he⟩


theorem mem_insertionOrderDates (claims : List Claim) (d : Date) :
    d ∈ insertionOrderDates claims ↔ ∃ c ∈ claims, c.accident_date = d := by
  unfold insertionOrderDates
  rw [mem_dates_foldl]
  simp

/-- Elimination principle for membership in the processed-claim list of
`preprocess_claims`: every processed claim comes from gating one input claim
with the frequency data of its accident-date group. -/
theorem mem_preprocess_elim (claims : List Claim) (cfg : StateConfig)
    (pc : ProcessedClaim) (hpc : pc ∈ (preprocess_claims claims cfg).1) :
    ∃ c ∈ claims,
      pc = (gateClaim cfg
        (groupRatio cfg (claims.filter (fun x => decide (x.accident_date = c.accident_date)))).1
        (groupRatio cfg (claims.filter (fun x => decide (x.accident_date = c.accident_date)))).2
        c).1 := by
  unfold preprocess_claims groupByDate at hpc
  rw [List.mem_flatMap] at hpc
  obtain ⟨g, hg, hpc⟩ := hpc
  rw [List.mem_map] at hg
  obtain ⟨d, _, hgd⟩ := hg
  subst hgd
  unfold processGroup at hpc
  rw [List.mem_map] at hpc
  obtain ⟨c, hc, hpc⟩ := hpc
  have hcd : c.accident_date = d := by
    have := (List.mem_filter.mp hc).2
    simpa using this
  refine ⟨c, (List.mem_filter.mp hc).1, ?_⟩
  subst hcd
  exact hpc.symm

/-- Introduction principle: every input claim is gated into the processed
list (with the frequency data of its accident-date group). -/
theorem mem_preprocess_intro (claims : List Claim) (cfg : StateConfig)
    (c : Claim) (hc : c ∈ claims) :
    (gateClaim cfg
        (groupRatio cfg (claims.filter (fun x => decide (x.accident_date = c.accident_date)))).1
        (groupRatio cfg (claims.filter (fun x => decide (x.accident_date = c.accident_date)))).2
        c).1 ∈ (preprocess_claims claims cfg).1 := by
  unfold preprocess_claims groupByDate
  rw [List.mem_flatMap]
  refine ⟨(c.accident_date,
    claims.filter (fun x => decide (x.accident_date = c.accident_date))), ?_, ?_⟩
  · rw [List.mem_map]
    exact ⟨c.accident_date, (mem_insertionOrderDates claims c.accident_date).mpr ⟨c, hc, rfl⟩,
      rfl⟩
  · unfold processGroup
    rw [List.mem_map]
    exact ⟨c, List.mem_filter.mpr ⟨hc, by simp⟩, rfl⟩

/-!  Claim C1. -/

/-- C1 counterexample: for zero exposures and zero processed claims in
Georgia (a supported NCCI state), the computed denominator is the clamped
ballast 7,500 — not 0 as the claim states. -/
theorem C1_counterexample :
    (calculate_experience_mod [] [] GeorgiaConfig).map ModCalculationResult.denominator =
      .ok 7500 ∧ (7500 : ℚ) ≠ 0 :=
  ⟨by with_unfolding_all rfl, by norm_num⟩

/-- C1 (amended): for a mod calculation over zero exposures and zero processed
claims in Georgia, the denominator equals the clamped ballast B = 7,500 (so
the zero-denominator fallback is not exercised), the numerator also equals
7,500, and the resulting experience mod is exactly 1.000 by ordinary
division — not an error and not NaN. -/
theorem C1_amended_thm :
    (calculate_experience_mod [] [] GeorgiaConfig).map
      (fun r => (r.denominator, r.numerator, r.experience_mod)) = .ok (7500, 7500, 1) := by
  with_unfolding_all rfl

/-!  Claim C4. -/

/-- C4: for every processed claim of `preprocess_claims`, the final ratable
amount is the SAL-capped amount scaled by the frequency ratio of its
accident-date group — the ratio being cap / (sum of raw incurred totals) when
the claim shares its date with at least one other claim and the raw group sum
exceeds the multiple-claim cap, and 1 otherwise. The ratio is computed from
raw incurred totals (before ERA/SAL) and applied after the SAL cap. -/
theorem C4_thm (claims : List Claim) (cfg : StateConfig) (pc : ProcessedClaim)
    (hpc : pc ∈ (preprocess_claims claims cfg).1) :
    pc.frequency_adjusted_amount =
      if 1 < (claims.filter
            (fun x => decide (x.accident_date = pc.original_claim.accident_date))).length ∧
          cfg.sal_multiple_claim <
            ((claims.filter
              (fun x => decide (x.accident_date = pc.original_claim.accident_date))).map
              Claim.incurred_total).sum then
        pc.sal_capped_amount * (cfg.sal_multiple_claim /
          ((claims.filter
            (fun x => decide (x.accident_date = pc.original_claim.accident_date))).map
            Claim.incurred_total).sum)
      else pc.sal_capped_amount := by
  obtain ⟨c, hc, rfl⟩ := mem_preprocess_elim claims cfg pc hpc
  rw [gateClaim_original, gateClaim_freq, gateClaim_sal, groupRatio_fst]
  split_ifs with h
  · rfl
  · exact mul_one _

/-- C4 witness: the first processed claim of the concrete two-claim
same-date scenario, whose group total 400,000 exceeds the Georgia cap. -/
theorem C4_witness :
    PC0 ∈ (preprocess_claims CLAIMS2 GeorgiaConfig).1 ∧
    PC0.frequency_adjusted_amount =
      (if 1 < (CLAIMS2.filter
            (fun x => decide (x.accident_date = PC0.original_claim.accident_date))).length ∧
          GeorgiaConfig.sal_multiple_claim <
            ((CLAIMS2.filter
              (fun x => decide (x.accident_date = PC0.original_claim.accident_date))).map
              Claim.incurred_total).sum then
        PC0.sal_capped_amount * (GeorgiaConfig.sal_multiple_claim /
          ((CLAIMS2.filter
            (fun x => decide (x.accident_date = PC0.original_claim.accident_date))).map
            Claim.incurred_total).sum)
      else PC0.sal_capped_amount) := by
  have hl : (preprocess_claims CLAIMS2 GeorgiaConfig).1 =
      PC0 :: ((preprocess_claims CLAIMS2 GeorgiaConfig).1).tail := by
    with_unfolding_all rfl
  have hm : PC0 ∈ (preprocess_claims CLAIMS2 GeorgiaConfig).1 := by
    rw [hl]; exact List.mem_cons_self _ _
  exact ⟨hm, C4_thm CLAIMS2 GeorgiaConfig PC0 hm⟩

/-!  Claim C5. -/

/-- C5: the end-to-end scenario — one exposure with payroll 100,000,
ELR 0.05, D-Ratio 0.40 in Georgia (S = 3,162,500) and no claims: expected
losses 50, expected primary 20, expected excess 30; raw Kp ≈ 0.631 (between
0.631 and 0.632), clamped so B = 7,500; W ≈ 0.00689 (between 0.00688 and
0.00690); denominator 7,550 and experience mod 0.997 after rounding. -/
theorem C5_thm :
    E5.expected_losses = 50 ∧ E5.expected_primary = 20 ∧ E5.expected_excess = 30 ∧
    631/1000 < ncci_kp_raw 50 GeorgiaConfig.s_value ∧
    ncci_kp_raw 50 GeorgiaConfig.s_value < 632/1000 ∧
    (GeorgiaConfig.calc_w_b_ncci 50).2 = 7500 ∧
    688/100000 < (GeorgiaConfig.calc_w_b_ncci 50).1 ∧
    (GeorgiaConfig.calc_w_b_ncci 50).1 < 690/100000 ∧
    (calculate_experience_mod [E5] [] GeorgiaConfig).map
      (fun r => (r.denominator, r.experience_mod)) = .ok (7550, 997/1000) := by
  have hkp : ncci_kp_raw 50 GeorgiaConfig.s_value = 186060/294677 := by
    with_unfolding_all rfl
  have hw : (GeorgiaConfig.calc_w_b_ncci 50).1 = 1344233/195179731 := by
    with_unfolding_all rfl
  refine ⟨by with_unfolding_all rfl, by with_unfolding_all rfl, by with_unfolding_all rfl,
    ?_, ?_, by with_unfolding_all rfl, ?_, ?_, by with_unfolding_all rfl⟩
  · rw [hkp]; norm_num
  · rw [hkp]; norm_num
  · rw [hw]; norm_num
  · rw [hw]; norm_num

/-!  Claim C7. -/

/-- C7: `get_state_config` on any state code outside {GA, CA, NY, PA} returns
the "not yet implemented" error naming the supported set (never a default
config), and `calculate_w_and_b` of each configured non-NCCI state (CA, NY,
PA) errors for every expected-losses input instead of using NCCI math. -/
theorem C7_thm (s : String) (E : ℚ)
    (h : s ≠ "GA" ∧ s ≠ "CA" ∧ s ≠ "NY" ∧ s ≠ "PA") :
    get_state_config s =
      .error ("State " ++ s ++ " not yet implemented. Available: [GA, CA, NY, PA]") ∧
    CaliforniaConfig.calculate_w_and_b E =
      .error "California W/B calculation requires WCIRB documentation" ∧
    NewYorkConfig.calculate_w_and_b E =
      .error "New York W/B calculation requires NYCIRB documentation" ∧
    PennsylvaniaConfig.calculate_w_and_b E =
      .error "W/B calculation not implemented for PA" := by
  obtain ⟨h1, h2, h3, h4⟩ := h
  have g1 : (s == "GA") = false := beq_eq_false_iff_ne.mpr h1
  have g2 : (s == "CA") = false := beq_eq_false_iff_ne.mpr h2
  have g3 : (s == "NY") = false := beq_eq_false_iff_ne.mpr h3
  have g4 : (s == "PA") = false := beq_eq_false_iff_ne.mpr h4
  refine ⟨?_, by with_unfolding_all rfl, by with_unfolding_all rfl,
    by with_unfolding_all rfl⟩
  simp [get_state_config, STATE_CONFIGS, List.lookup, g1, g2, g3, g4]

/-- C7 witness at the unconfigured state code "TX" and expected losses 0. -/
theorem C7_witness :
    (("TX" : String) ≠ "GA" ∧ ("TX" : String) ≠ "CA" ∧ ("TX" : String) ≠ "NY" ∧
      ("TX" : String) ≠ "PA") ∧
    get_state_config "TX" =
      .error ("State " ++ "TX" ++ " not yet implemented. Available: [GA, CA, NY, PA]") ∧
    CaliforniaConfig.calculate_w_and_b 0 =
      .error "California W/B calculation requires WCIRB documentation" ∧
    NewYorkConfig.calculate_w_and_b 0 =
      .error "New York W/B calculation requires NYCIRB documentation" ∧
    PennsylvaniaConfig.calculate_w_and_b 0 =
      .error "W/B calculation not implemented for PA" :=
  ⟨of_decide_eq_true (by with_unfolding_all rfl),
   C7_thm "TX" 0 (of_decide_eq_true (by with_unfolding_all rfl))⟩

/-!  Claim C9. -/

/-- C9: for claims with non-negative incurred amounts, every processed claim
satisfies primary + excess = frequency-adjusted amount, with
primary = min(frequency-adjusted, split point) ≤ split point and excess ≥ 0:
the primary/excess split neither loses nor creates loss dollars. -/
theorem C9_thm (claims : List Claim) (cfg : StateConfig)
    (h : claims.all (fun c =>
      decide (0 ≤ c.incurred_indemnity) && decide (0 ≤ c.incurred_medical)) = true) :
    ((preprocess_claims claims cfg).1).all (fun pc =>
      decide (pc.primary_loss + pc.excess_loss = pc.frequency_adjusted_amount) &&
      decide (pc.primary_loss = min pc.frequency_adjusted_amount cfg.split_point) &&
      decide (pc.primary_loss ≤ cfg.split_point) &&
      decide (0 ≤ pc.excess_loss)) = true := by
  clear h
  rw [List.all_eq_true]
  intro pc hpc
  obtain ⟨c, hc, rfl⟩ := mem_preprocess_elim claims cfg pc hpc
  simp only [gateClaim_primary, gateClaim_excess, Bool.and_eq_true, decide_eq_true_eq]
  set fa := (gateClaim cfg
    (groupRatio cfg (claims.filter (fun x => decide (x.accident_date = c.accident_date)))).1
    (groupRatio cfg (claims.filter (fun x => decide (x.accident_date = c.accident_date)))).2
    c).1.frequency_adjusted_amount with hfa
  refine ⟨⟨⟨?_, trivial⟩, min_le_right _ _⟩, le_max_left _ _⟩
  rcases le_total fa cfg.split_point with h1 | h1
  · rw [min_eq_left h1, max_eq_left (sub_nonpos.mpr h1), add_zero]
  · rw [min_eq_right h1, max_eq_right (sub_nonneg.mpr h1), add_sub_cancel]

/-- C9 witness at the single 200,000 claim in Georgia. -/
theorem C9_witness :
    ([c0].all (fun c =>
      decide (0 ≤ c.incurred_indemnity) && decide (0 ≤ c.incurred_medical)) = true) ∧
    ((preprocess_claims [c0] GeorgiaConfig).1).all (fun pc =>
      decide (pc.primary_loss + pc.excess_loss = pc.frequency_adjusted_amount) &&
      decide (pc.primary_loss = min pc.frequency_adjusted_amount GeorgiaConfig.split_point) &&
      decide (pc.primary_loss ≤ GeorgiaConfig.split_point) &&
      decide (0 ≤ pc.excess_loss)) = true :=
  ⟨by with_unfolding_all rfl,
   C9_thm [c0] GeorgiaConfig (by with_unfolding_all rfl)⟩

/-!  Claim C3. -/

/-- C3 counterexample: the exposure `E_cx` triggers none of the five payroll
rules (executive payroll 50,000 is below the 100,000 cap), so no leak is
emitted — but the returned exposure is NOT equal to the input: the
executive-officer payroll field is reset to 0 instead of kept at 50,000. -/
theorem C3_counterexample :
    (adjust_payroll_for_leaks [E_cx] GeorgiaConfig 100000).2 = [] ∧
    (adjust_payroll_for_leaks [E_cx] GeorgiaConfig 100000).1 ≠ [E_cx] := by
  refine ⟨by with_unfolding_all rfl, ?_⟩
  intro hEq
  have h1 : ((adjust_payroll_for_leaks [E_cx] GeorgiaConfig 100000).1.headD
      E_cx).executive_officer_payroll = 0 := by with_unfolding_all rfl
  rw [hEq] at h1
  have h2 : ([E_cx].headD E_cx).executive_officer_payroll = 50000 := by
    with_unfolding_all rfl
  rw [h2] at h1
  norm_num at h1

/-- C3 (amended): for an exposure on which none of the five payroll-leak
rules triggers, `adjust_payroll_for_leaks` emits no leak and returns an
exposure with the same class code, description, payroll, ELR and D-Ratio;
the payroll-component fields, however, are reset to their dataclass defaults
(zeros, overtime rate 1.5), so the output equals the input only when those
fields already held the defaults. -/
theorem C3_amended_thm (exp : ClassCodeExposure) (cfg : StateConfig) (cap : ℚ)
    (h1 : ¬ 0 < exp.overtime_earnings) (h2 : ¬ cap < exp.executive_officer_payroll)
    (h3 : ¬ 0 < exp.severance_pay) (h4 : ¬ 0 < exp.travel_reimbursements)
    (h5 : ¬ 0 < exp.subcontractor_payroll) :
    adjust_payroll_for_leaks [exp] cfg cap =
      ([{ class_code := exp.class_code, description := exp.description
          payroll := exp.payroll, elr := exp.elr, d_ratio := exp.d_ratio }], []) := by
  simp [adjust_payroll_for_leaks, adjustedExposure, payrollCorrections, exposureLeaks,
    h1, h2, h3, h4, h5]

/-- C3 witness at `E_cx` (no rule triggers; class code, description, payroll,
ELR, D-Ratio survive; component fields are defaulted). -/
theorem C3_amended_witness :
    (¬ (0:ℚ) < E_cx.overtime_earnings) ∧ (¬ (100000:ℚ) < E_cx.executive_officer_payroll) ∧
    (¬ (0:ℚ) < E_cx.severance_pay) ∧ (¬ (0:ℚ) < E_cx.travel_reimbursements) ∧
    (¬ (0:ℚ) < E_cx.subcontractor_payroll) ∧
    adjust_payroll_for_leaks [E_cx] GeorgiaConfig 100000 =
      ([{ class_code := E_cx.class_code, description := E_cx.description
          payroll := E_cx.payroll, elr := E_cx.elr, d_ratio := E_cx.d_ratio }], []) :=
  ⟨by norm_num [E_cx], by norm_num [E_cx], by norm_num [E_cx], by norm_num [E_cx],
   by norm_num [E_cx],
   C3_amended_thm E_cx GeorgiaConfig 100000 (by norm_num [E_cx]) (by norm_num [E_cx])
     (by norm_num [E_cx]) (by norm_num [E_cx]) (by norm_num [E_cx])⟩

/-!  Claim C10. -/

/-- C10 counterexample: with a negative executive-officer cap (−1), applying
`adjust_payroll_for_leaks` to its own output emits a leak again (the zeroed
executive payroll still exceeds the negative cap) and changes the payroll —
so idempotence fails for arbitrary caps. -/
theorem C10_counterexample :
    ((adjust_payroll_for_leaks
        ((adjust_payroll_for_leaks [E_cx] GeorgiaConfig (-1)).1) GeorgiaConfig (-1)).2 ≠ []) ∧
    ((adjust_payroll_for_leaks
        ((adjust_payroll_for_leaks [E_cx] GeorgiaConfig (-1)).1) GeorgiaConfig (-1)).1 ≠
      (adjust_payroll_for_leaks [E_cx] GeorgiaConfig (-1)).1) := by
  constructor
  · intro hEq
    have hlen : ((adjust_payroll_for_leaks
        ((adjust_payroll_for_leaks [E_cx] GeorgiaConfig (-1)).1) GeorgiaConfig
          (-1)).2).length = 1 := by with_unfolding_all rfl
    rw [hEq] at hlen
    simp at hlen
  · intro hEq
    have hpay : (((adjust_payroll_for_leaks
        ((adjust_payroll_for_leaks [E_cx] GeorgiaConfig (-1)).1) GeorgiaConfig
          (-1)).1).headD E_cx).payroll = 249998 := by with_unfolding_all rfl
    rw [hEq] at hpay
    have hpay2 : (((adjust_payroll_for_leaks [E_cx] GeorgiaConfig (-1)).1).headD
        E_cx).payroll = 249999 := by with_unfolding_all rfl
    rw [hpay2] at hpay
    norm_num at hpay

/-- C10 (amended): for every exposure list, config and NON-NEGATIVE
executive-officer cap, `adjust_payroll_for_leaks` is idempotent — applying it
to its own output emits no leaks and returns the same exposures, because
every adjusted exposure has its payroll-component fields reset to defaults so
no rule can trigger a second time. (A negative cap re-triggers the
executive-officer rule on the zeroed field, hence the restriction.) -/
theorem C10_amended_thm (exposures : List ClassCodeExposure) (cfg : StateConfig) (cap : ℚ)
    (h : 0 ≤ cap) :
    adjust_payroll_for_leaks ((adjust_payroll_for_leaks exposures cfg cap).1) cfg cap =
      ((adjust_payroll_for_leaks exposures cfg cap).1, []) := by
  have hc : ¬ cap < (0 : ℚ) := not_lt.mpr h
  have hfix : ∀ e : ClassCodeExposure,
      adjustedExposure cap (adjustedExposure cap e) = adjustedExposure cap e := by
    intro e
    simp [adjustedExposure, payrollCorrections, hc]
  have hleaks : ∀ e : ClassCodeExposure,
      exposureLeaks cap (adjustedExposure cap e) = [] := by
    intro e
    simp [exposureLeaks, adjustedExposure, hc]
  have hmap : ∀ l : List ClassCodeExposure,
      (l.map (adjustedExposure cap)).map (adjustedExposure cap) =
        l.map (adjustedExposure cap) := by
    intro l
    induction l with
    | nil => rfl
    | cons a t ih => simp [hfix, ih]
  have hflat : ∀ l : List ClassCodeExposure,
      (l.map (adjustedExposure cap)).flatMap (exposureLeaks cap) = [] := by
    intro l
    induction l with
    | nil => rfl
    | cons a t ih => simp [List.flatMap_cons, hleaks, ih]
  unfold adjust_payroll_for_leaks
  rw [hmap, hflat]

/-- C10 witness: the default cap 100,000 is non-negative, and re-running the
adjuster on the adjusted `E_cx` list returns it unchanged, with no leaks. -/
theorem C10_amended_witness :
    (0 : ℚ) ≤ 100000 ∧
    adjust_payroll_for_leaks ((adjust_payroll_for_leaks [E_cx] GeorgiaConfig 100000).1)
        GeorgiaConfig 100000 =
      ((adjust_payroll_for_leaks [E_cx] GeorgiaConfig 100000).1, []) :=
  ⟨by norm_num, C10_amended_thm [E_cx] GeorgiaConfig 100000 (by norm_num)⟩

/-!  Claim C2. -/

/-- C2 counterexample: for the single-claim Georgia scenario the audit report
contains exactly 1 leak (the SAL gate leak, emitted once), while the claimed
concatenation with BOTH passes' gate leaks would contain 2 — the first pass's
gate leaks are discarded by `run_full_audit`, so gate leaks do not appear
once per pass. -/
theorem C2_counterexample :
    (run_full_audit P0 [] [c0] 739400 100000).map (fun r => r.detected_leaks.length) =
      .ok 1 ∧
    ((adjust_payroll_for_leaks [] GeorgiaConfig 100000).2 ++
      ((preprocess_claims [c0] GeorgiaConfig).2 ++ (preprocess_claims [c0] GeorgiaConfig).2) ++
      detect_claim_leaks [c0] 739400).length = 2 :=
  ⟨by with_unfolding_all rfl, by with_unfolding_all rfl⟩

/-- C2 (amended): for every input on which the audit succeeds, the leak list
of the produced report is the concatenation, in insertion order and without
deduplication, of the PayrollAdjuster leaks, the gate-pipeline ERA/SAL leaks
of ONE pass (the current pass's copy is discarded; both passes compute equal
leak lists over the same raw claims), and the ClaimLeakDetector leaks. -/
theorem C2_amended_thm (p : PolicyInfo) (es : List ClassCodeExposure) (cs : List Claim)
    (vd : Date) (cap : ℚ) (cfg : StateConfig) (r : AuditReport)
    (hcfg : get_state_config p.state = .ok cfg)
    (hr : run_full_audit p es cs vd cap = .ok r) :
    r.detected_leaks =
      (adjust_payroll_for_leaks es cfg cap).2 ++ (preprocess_claims cs cfg).2 ++
        detect_claim_leaks cs vd := by
  unfold run_full_audit at hr
  rw [hcfg] at hr
  dsimp only [] at hr
  cases h1 : calculate_experience_mod es (preprocess_claims cs cfg).1 cfg with
  | error e1 =>
      rw [h1] at hr
      exact Except.noConfusion hr
  | ok m1 =>
      rw [h1] at hr
      dsimp only [] at hr
      cases h2 : calculate_experience_mod (adjust_payroll_for_leaks es cfg cap).1
          ((preprocess_claims cs cfg).1.filter (fun c => ! c.original_claim.is_denied))
          cfg with
      | error e2 =>
          rw [h2] at hr
          exact Except.noConfusion hr
      | ok m2 =>
          rw [h2] at hr
          injection hr with h
          subst h
          rfl

/-- C2 witness: the single-claim Georgia scenario, where the report's leak
list equals payroll leaks ++ one pass's gate leaks ++ claim-detector leaks. -/
theorem C2_amended_witness :
    get_state_config P0.state = .ok GeorgiaConfig ∧
    run_full_audit P0 [] [c0] 739400 100000 = .ok AUDIT_R0 ∧
    AUDIT_R0.detected_leaks =
      (adjust_payroll_for_leaks [] GeorgiaConfig 100000).2 ++
        (preprocess_claims [c0] GeorgiaConfig).2 ++ detect_claim_leaks [c0] 739400 := by
  have hcfg : get_state_config P0.state = .ok GeorgiaConfig := by with_unfolding_all rfl
  have hr : run_full_audit P0 [] [c0] 739400 100000 = .ok AUDIT_R0 := by
    with_unfolding_all rfl
  exact ⟨hcfg, hr, C2_amended_thm P0 [] [c0] 739400 100000 GeorgiaConfig AUDIT_R0 hcfg hr⟩

/-!  Claim C6. -/

/-- One detector step adds exactly one Rule 4-C leak when the claim is denied
with positive incurred total, and none otherwise; no other leak kind emitted
by the step carries the Rule 4-C tag. -/
theorem detectLeaksStep_r4c_filter (vd : Date)
    (acc : List DetectedLeak × List (String × String)) (c : Claim) :
    ((detectLeaksStep vd acc c).1).filter
        (fun l => decide (l.leak_type = LeakType.RULE_4C_DENIAL)) =
      acc.1.filter (fun l => decide (l.leak_type = LeakType.RULE_4C_DENIAL)) ++
        (if c.is_denied = true ∧ 0 < c.incurred_total then [rule4cLeak c] else []) := by
  unfold detectLeaksStep
  cases hlk : acc.2.lookup (claimSig c) with
  | some orig =>
      cases hlp : c.last_payment_date with
      | some lpd =>
          simp only [hlp, List.filter_append]
          split_ifs <;> simp [subrogationLeak, zombieLeak, rule4cLeak, sifLeak, dupLeak]
      | none =>
          simp only [hlp, List.filter_append]
          split_ifs <;> simp [subrogationLeak, rule4cLeak, sifLeak, dupLeak]
  | none =>
      cases hlp : c.last_payment_date with
      | some lpd =>
          simp only [hlp, List.filter_append]
          split_ifs <;> simp [subrogationLeak, zombieLeak, rule4cLeak, sifLeak]
      | none =>
          simp only [hlp, List.filter_append]
          split_ifs <;> simp [subrogationLeak, rule4cLeak, sifLeak]

/-- Folding the detector over a claim list accumulates exactly one Rule 4-C
leak per denied claim with positive incurred total, in claim order. -/
theorem detect_r4c_foldl (vd : Date) (cs : List Claim) (acc : List DetectedLeak)
    (sigs : List (String × String)) :
    ((cs.foldl (detectLeaksStep vd) (acc, sigs)).1).filter
        (fun l => decide (l.leak_type = LeakType.RULE_4C_DENIAL)) =
      acc.filter (fun l => decide (l.leak_type = LeakType.RULE_4C_DENIAL)) ++
        (cs.filter (fun x => x.is_denied && decide (0 < x.incurred_total))).map rule4cLeak := by
  induction cs generalizing acc sigs with
  | nil => simp
  | cons c rest ih =>
      rw [List.foldl_cons]
      have hstep := ih (detectLeaksStep vd (acc, sigs) c).1
        (detectLeaksStep vd (acc, sigs) c).2
      rw [Prod.mk.eta] at hstep
      rw [hstep, detectLeaksStep_r4c_filter vd (acc, sigs) c]
      rw [List.filter_cons]
      by_cases hd : c.is_denied = true ∧ 0 < c.incurred_total
      · have hb : (c.is_denied && decide (0 < c.incurred_total)) = true := by
          rw [hd.1, decide_eq_true hd.2]; rfl
        simp [hd, hb]
      · have hb : (c.is_denied && decide (0 < c.incurred_total)) = false := by
          rcases Bool.eq_false_or_eq_true c.is_denied with ht | hf
          · have : ¬ 0 < c.incurred_total := fun hpos => hd ⟨ht, hpos⟩
            rw [ht, decide_eq_false this]; rfl
          · rw [hf]; rfl
        simp [hd, hb]

/-- C6: every denied claim appears (as the original claim of a processed
claim) in the current-pass processed set of `preprocess_claims`, is excluded
entirely from the corrected-pass set (the denial filter used by
`run_full_audit`), and the Rule 4-C leaks of `detect_claim_leaks` are exactly
one per denied claim with positive incurred total, each with dollar impact
equal to the full incurred total and recovery probability 0.95. -/
theorem C6_thm (claims : List Claim) (cfg : StateConfig) (vd : Date) (c : Claim)
    (hc : c ∈ claims) (hd : c.is_denied = true) :
    ((preprocess_claims claims cfg).1).any
        (fun pc => decide (pc.original_claim = c)) = true ∧
    (((preprocess_claims claims cfg).1.filter
        (fun p => ! p.original_claim.is_denied)).all
        (fun pc => ! decide (pc.original_claim = c))) = true ∧
    (detect_claim_leaks claims vd).filter
        (fun l => decide (l.leak_type = LeakType.RULE_4C_DENIAL)) =
      (claims.filter (fun x => x.is_denied && decide (0 < x.incurred_total))).map
        rule4cLeak ∧
    (rule4cLeak c).dollar_impact = c.incurred_total ∧
    (rule4cLeak c).recovery_probability = 95/100 := by
  refine ⟨?_, ?_, ?_, rfl, rfl⟩
  · rw [List.any_eq_true]
    exact ⟨_, mem_preprocess_intro claims cfg c hc, by rw [gateClaim_original]; simp⟩
  · rw [List.all_eq_true]
    intro pc hpc
    have h2 := (List.mem_filter.mp hpc).2
    have hfalse : pc.original_claim.is_denied = false := by
      simpa using h2
    simp only [Bool.not_eq_true', decide_eq_false_iff_not]
    intro he
    rw [he, hd] at hfalse
    exact Bool.noConfusion hfalse
  · unfold detect_claim_leaks
    rw [detect_r4c_foldl]
    simp

/-- C6 witness: the two-claim list with one denied claim (incurred 42,000)
in Georgia. -/
theorem C6_witness :
    cDenied ∈ [c0, cDenied] ∧ cDenied.is_denied = true ∧
    ((preprocess_claims [c0, cDenied] GeorgiaConfig).1).any
        (fun pc => decide (pc.original_claim = cDenied)) = true ∧
    (((preprocess_claims [c0, cDenied] GeorgiaConfig).1.filter
        (fun p => ! p.original_claim.is_denied)).all
        (fun pc => ! decide (pc.original_claim = cDenied))) = true ∧
    (detect_claim_leaks [c0, cDenied] 739400).filter
        (fun l => decide (l.leak_type = LeakType.RULE_4C_DENIAL)) =
      ([c0, cDenied].filter (fun x => x.is_denied && decide (0 < x.incurred_total))).map
        rule4cLeak ∧
    (rule4cLeak cDenied).dollar_impact = cDenied.incurred_total ∧
    (rule4cLeak cDenied).recovery_probability = 95/100 := by
  have hm : cDenied ∈ [c0, cDenied] := by simp
  have hd : cDenied.is_denied = true := by with_unfolding_all rfl
  have h := C6_thm [c0, cDenied] GeorgiaConfig 739400 cDenied hm hd
  exact ⟨hm, hd, h.1, h.2.1, h.2.2.1, h.2.2.2.1, h.2.2.2.2⟩

/-!  Claim C8. -/

/-- Filtering distributes over `flatMap`. -/
theorem filter_flatMap_eq {α β : Type} (l : List α) (f : α → List β) (p : β → Bool) :
    (l.flatMap f).filter p = l.flatMap (fun a => (f a).filter p) := by
  induction l with
  | nil => rfl
  | cons a t ih => simp [List.flatMap_cons, List.filter_append, ih]

/-- The SAL-tagged leaks of one gated claim: exactly one SAL leak when the cap
strictly reduces the ERA-stage amount, none otherwise; the ERA leak never
carries the SAL tag. The result does not depend on the frequency ratio. -/
theorem gateClaim_sal_leaks (cfg : StateConfig) (r : ℚ) (b : Bool) (c : Claim) :
    ((gateClaim cfg r b c).2).filter
        (fun l => decide (l.leak_type = LeakType.SPLIT_POINT_CAP)) =
      if cfg.apply_sal_cap (eraRatable cfg c) < eraRatable cfg c then [salLeak cfg c]
      else [] := by
  unfold gateClaim
  simp only [List.filter_append]
  split_ifs <;> simp [eraLeak, salLeak]

/-- C8: in `preprocess_claims` the SAL-capped amount of every processed claim
is `min(ERA-stage amount, sal_per_claim)` with the applied flag set exactly on
strict reduction; the SAL leaks emitted are exactly one per claim whose
ERA-stage amount strictly exceeds the cap, with dollar impact equal to the
reduction and recovery probability 0.99; concretely, a 200,000 claim in
Georgia (sal_per_claim = 176,000) is capped to 176,000 and produces a single
leak of 24,000 at probability 0.99. -/
theorem C8_thm (claims : List Claim) (cfg : StateConfig) (c : Claim) :
    (((preprocess_claims claims cfg).1).all (fun pc =>
        decide (pc.sal_capped_amount = min pc.era_ratable_amount cfg.sal_per_claim) &&
        (pc.sal_applied == decide (pc.sal_capped_amount < pc.era_ratable_amount))) = true) ∧
    ((preprocess_claims claims cfg).2.filter
        (fun l => decide (l.leak_type = LeakType.SPLIT_POINT_CAP)) =
      ((groupByDate claims).flatMap Prod.snd).flatMap (fun x =>
        if cfg.apply_sal_cap (eraRatable cfg x) < eraRatable cfg x then [salLeak cfg x]
        else [])) ∧
    (salLeak cfg c).dollar_impact =
      eraRatable cfg c - cfg.apply_sal_cap (eraRatable cfg c) ∧
    (salLeak cfg c).recovery_probability = 99/100 ∧
    GeorgiaConfig.apply_sal_cap 200000 = 176000 ∧
    (preprocess_claims [c0] GeorgiaConfig).1.map ProcessedClaim.sal_capped_amount =
      [176000] ∧
    (preprocess_claims [c0] GeorgiaConfig).2.map
        (fun l => (l.leak_type, l.dollar_impact, l.recovery_probability)) =
      [(LeakType.SPLIT_POINT_CAP, 24000, 99/100)] := by
  refine ⟨?_, ?_, rfl, rfl, by with_unfolding_all rfl, by with_unfolding_all rfl,
    by with_unfolding_all rfl⟩
  · rw [List.all_eq_true]
    intro pc hpc
    obtain ⟨x, hx, rfl⟩ := mem_preprocess_elim claims cfg pc hpc
    simp [gateClaim_sal, gateClaim_era, gateClaim_sal_applied, StateConfig.apply_sal_cap]
  · unfold preprocess_claims
    rw [filter_flatMap_eq, List.flatMap_assoc]
    congr 1
    funext g
    unfold processGroup
    rw [filter_flatMap_eq]
    congr 1
    funext x
    exact gateClaim_sal_leaks cfg _ _ x

end InsuranceAudit
